import Mathlib

/-!
Shallow embedding of the two example programs of this repository,
`example-first-project/src/main.cpp` and `example-hello-triangle/src/main.cpp`.

Each program is modelled as a function from an environment (the outcomes of
calls into the external windowing / graphics collaborator: whether window
creation succeeds, whether the graphics entry points resolve, whether each
shader compile and the link succeed, and the per-iteration escape-key and
external-close signals) and a fuel bound on the render loop, to the trace of
API calls the program performs together with its process exit status.
A `none` result means the render loop was still running after `fuel`
iterations; a `some (trace, code)` result is a complete terminating run.
-/

namespace WtLearnOpenGL

/-- GLFW window-hint identifier, value taken from the GLFW headers. -/
def GLFW_CONTEXT_VERSION_MAJOR : Nat := 139266

/-- GLFW window-hint identifier, value taken from the GLFW headers. -/
def GLFW_CONTEXT_VERSION_MINOR : Nat := 139267

/-- GLFW window-hint identifier, value taken from the GLFW headers. -/
def GLFW_OPENGL_PROFILE : Nat := 139272

/-- GLFW profile value, taken from the GLFW headers. -/
def GLFW_OPENGL_CORE_PROFILE : Nat := 204801

/-- GLFW key code of the escape key. -/
def GLFW_KEY_ESCAPE : Nat := 256

/-- GLFW key state reported for a currently pressed key. -/
def GLFW_PRESS : Nat := 1

/-- OpenGL buffer mask for the color buffer. -/
def GL_COLOR_BUFFER_BIT : Nat := 16384

/-- OpenGL primitive topology for triangles. -/
def GL_TRIANGLES : Nat := 4

/-- OpenGL shader stage tag for vertex shaders. -/
def GL_VERTEX_SHADER : Nat := 35633

/-- OpenGL shader stage tag for fragment shaders. -/
def GL_FRAGMENT_SHADER : Nat := 35632

/-- OpenGL query name for compile status. -/
def GL_COMPILE_STATUS : Nat := 35713

/-- OpenGL query name for link status. -/
def GL_LINK_STATUS : Nat := 35714

/-- OpenGL buffer binding target for vertex data. -/
def GL_ARRAY_BUFFER : Nat := 34962

/-- OpenGL usage hint for static buffer data. -/
def GL_STATIC_DRAW : Nat := 35044

/-- OpenGL scalar type tag for 32-bit floats. -/
def GL_FLOAT : Nat := 5126

/-- Window width constant from both main files. -/
def WINDOW_WIDTH : Nat := 800

/-- Window height constant from both main files. -/
def WINDOW_HEIGHT : Nat := 600

/-- One observable call into the windowing or graphics API, as issued by the
programs.  Color components are recorded in exact thousandths of the
source's float literals (all of which are exact multiples of 0.001), so
`clearColor 200 300 300 1000` stands for `glClearColor(0.2f, 0.3f, 0.3f, 1.0f)`. -/
inductive Ev where
  | glfwInitEv : Ev
  | windowHint (hint value : Nat) : Ev
  | createWindow (w h : Nat) (title : String) : Ev
  | printMsg (s : String) : Ev
  | terminate : Ev
  | makeContextCurrent : Ev
  | setFramebufferSizeCallback : Ev
  | gladLoad : Ev
  | getKey (key : Nat) : Ev
  | setWindowShouldClose (b : Bool) : Ev
  | clearColor (r g b a : Nat) : Ev
  | clear (mask : Nat) : Ev
  | createShader (stage id : Nat) : Ev
  | shaderSource (id : Nat) (src : String) : Ev
  | compileShader (id : Nat) : Ev
  | getShaderiv (id pname : Nat) : Ev
  | getShaderInfoLog (id maxLen : Nat) : Ev
  | createProgram (id : Nat) : Ev
  | attachShader (prog sh : Nat) : Ev
  | linkProgram (prog : Nat) : Ev
  | getProgramiv (prog pname : Nat) : Ev
  | getProgramInfoLog (prog maxLen : Nat) : Ev
  | deleteShader (id : Nat) : Ev
  | useProgram (prog : Nat) : Ev
  | genVertexArrays (id : Nat) : Ev
  | genBuffers (id : Nat) : Ev
  | bindVertexArray (id : Nat) : Ev
  | bindBuffer (target id : Nat) : Ev
  | bufferData (target size : Nat) : Ev
  | vertexAttribPointer (index size : Nat) : Ev
  | enableVertexAttribArray (index : Nat) : Ev
  | drawArrays (mode first count : Nat) : Ev
  | pollEvents : Ev
  | swapBuffers : Ev
  | viewport (x y w h : Int) : Ev
deriving DecidableEq

/-- Environment of one run: outcomes of the external collaborator calls.
`escDown n` is whether the escape key is observed pressed during iteration
`n`'s input check; `extClose n` is whether event processing of iteration `n`
raises the window's close flag (for example the window-manager close button). -/
structure Env where
  windowOk : Bool
  gladOk : Bool
  vertexCompileOk : Bool
  fragmentCompileOk : Bool
  linkOk : Bool
  escDown : Nat → Bool
  extClose : Nat → Bool

/-- The vertex shader source string of `example-hello-triangle`. -/
def vertexShaderSource : String :=
  "#version 330 core \nlayout (location = 0) in vec3 aPos;\nvoid main()\n\x7b\n  gl_Position = vec4(aPos.x, aPos.y, aPos.z, 1.0);\n\x7d\x00"

/-- The fragment shader source string of `example-hello-triangle`. -/
def fragmentShaderSource : String :=
  "#version 330 core \nout vec4 FragColor;\nvoid main()\n\x7b\n  FragColor = vec4(1.0f, 0.5f, 0.2f, 1.0f);\n\x7d\x00"

/-- Handle of the vertex Shader Object (the concrete value returned by
`glCreateShader` is opaque; we fix a representative). -/
def vertexShader : Nat := 1

/-- Handle of the fragment Shader Object. -/
def fragmentShader : Nat := 2

/-- Handle of the linked Shader Program. -/
def shaderProgram : Nat := 3

/-- Handle of the vertex array object of `example-hello-triangle`. -/
def VAO : Nat := 1

/-- Handle of the vertex buffer object of `example-hello-triangle`. -/
def VBO : Nat := 2

/-- The triangle's vertex data: 9 floats, 3 vertices, from
`example-hello-triangle`, in thousandths. -/
def vertices : List Int :=
  [-500, -500, 0, 500, -500, 0, 0, 500, 0]

/-- Effect of `processInput`: query the escape key; if it is pressed, raise
the window's should-close flag.  Both main files contain this function
verbatim. -/
def processInput (escDown : Bool) : List Ev :=
  Ev.getKey GLFW_KEY_ESCAPE ::
    (if escDown then [Ev.setWindowShouldClose true] else [])

/-- Effect of `framebufferSizeCallback`: set the viewport to origin (0,0)
with the given width and height.  Both main files contain this function
verbatim. -/
def framebufferSizeCallback (width height : Int) : List Ev :=
  [Ev.viewport 0 0 width height]

/-- Window title used by both main files. -/
def windowTitle : String := "Work-Through: Learn OpenGL  |  Hello Window!"

/-- Startup calls common to both programs: GLFW init, the three window hints
(non-Apple build), and window creation. -/
def startupEvents : List Ev :=
  [Ev.glfwInitEv,
   Ev.windowHint GLFW_CONTEXT_VERSION_MAJOR 3,
   Ev.windowHint GLFW_CONTEXT_VERSION_MINOR 3,
   Ev.windowHint GLFW_OPENGL_PROFILE GLFW_OPENGL_CORE_PROFILE,
   Ev.createWindow WINDOW_WIDTH WINDOW_HEIGHT windowTitle]

/-- Calls made after successful window creation, up to and including the GLAD
loader call whose result is then tested. -/
def contextEvents : List Ev :=
  [Ev.makeContextCurrent, Ev.setFramebufferSizeCallback, Ev.gladLoad]

/-- Trace of the window-creation-failure path: message, `glfwTerminate`,
return -1. -/
def windowFailTrace : List Ev :=
  startupEvents ++ [Ev.printMsg "Failed to create GLFW window", Ev.terminate]

/-- Trace of the GLAD-failure path: message, then return -1 with no
`glfwTerminate`. -/
def gladFailTrace : List Ev :=
  startupEvents ++ contextEvents ++ [Ev.printMsg "Failed to initialize GLAD"]

/-- The shader build of `example-hello-triangle` up to but not including the
final deletion of the two Shader Objects: compile each stage, check its
status and print a bounded diagnostic on failure, attach both, link, check
link status likewise. -/
def shaderBuildBody (vOk fOk lOk : Bool) : List Ev :=
  [Ev.createShader GL_VERTEX_SHADER vertexShader,
   Ev.shaderSource vertexShader vertexShaderSource,
   Ev.compileShader vertexShader,
   Ev.getShaderiv vertexShader GL_COMPILE_STATUS]
  ++ (if vOk then [] else
      [Ev.getShaderInfoLog vertexShader 512,
       Ev.printMsg "ERROR::SHADER::VERTEX::COMPILATION_FAILED"])
  ++ [Ev.createShader GL_FRAGMENT_SHADER fragmentShader,
      Ev.shaderSource fragmentShader fragmentShaderSource,
      Ev.compileShader fragmentShader,
      Ev.getShaderiv fragmentShader GL_COMPILE_STATUS]
  ++ (if fOk then [] else
      [Ev.getShaderInfoLog fragmentShader 512,
       Ev.printMsg "ERROR::SHADER::FRAGMENT::COMPILATION_FAILED"])
  ++ [Ev.createProgram shaderProgram,
      Ev.attachShader shaderProgram vertexShader,
      Ev.attachShader shaderProgram fragmentShader,
      Ev.linkProgram shaderProgram,
      Ev.getProgramiv shaderProgram GL_LINK_STATUS]
  ++ (if lOk then [] else
      [Ev.getProgramInfoLog shaderProgram 512,
       Ev.printMsg "ERROR::SHADER::PROGRAM::LINKING_FAILED"])

/-- The full shader build: the body above followed by the unconditional
deletion of both intermediate Shader Objects. -/
def shaderBuildEvents (vOk fOk lOk : Bool) : List Ev :=
  shaderBuildBody vOk fOk lOk
    ++ [Ev.deleteShader vertexShader, Ev.deleteShader fragmentShader]

/-- Vertex buffer and vertex array setup of `example-hello-triangle`:
generate, bind, upload the 36 bytes of vertex data, describe the attribute
layout, then unbind. -/
def vertexSetupEvents : List Ev :=
  [Ev.genVertexArrays VAO,
   Ev.genBuffers VBO,
   Ev.bindVertexArray VAO,
   Ev.bindBuffer GL_ARRAY_BUFFER VBO,
   Ev.bufferData GL_ARRAY_BUFFER (4 * vertices.length),
   Ev.vertexAttribPointer 0 3,
   Ev.enableVertexAttribArray 0,
   Ev.bindBuffer GL_ARRAY_BUFFER 0,
   Ev.bindVertexArray 0]

/-- One iteration of the `example-hello-triangle` render loop: input check,
clear to the configured color, bind the Shader Program and the vertex array,
draw 3 vertices as triangles, poll events, swap buffers. -/
def triIterEvents (escDown : Bool) : List Ev :=
  processInput escDown
  ++ [Ev.clearColor 200 300 300 1000,
      Ev.clear GL_COLOR_BUFFER_BIT,
      Ev.useProgram shaderProgram,
      Ev.bindVertexArray VAO,
      Ev.drawArrays GL_TRIANGLES 0 3,
      Ev.pollEvents,
      Ev.swapBuffers]

/-- One iteration of the `example-first-project` render loop: input check,
clear to the configured color, poll events, swap buffers. -/
def winIterEvents (escDown : Bool) : List Ev :=
  processInput escDown
  ++ [Ev.clearColor 0 145 1000 1000,
      Ev.clear GL_COLOR_BUFFER_BIT,
      Ev.pollEvents,
      Ev.swapBuffers]

/-- The render loop: while the window's should-close flag is down, run one
iteration.  The flag is raised by `processInput` when escape is pressed or by
event processing (`extClose`); either way the raised flag is observed at the
next top-of-loop check.  Returns the list of iterations run, or `none` if
`fuel` iterations did not reach termination. -/
def loopRun (iter : Bool → List Ev) (esc ext : Nat → Bool) :
    Nat → Nat → Bool → Option (List (List Ev))
  | _, _, true => some []
  | 0, _, false => none
  | fuel + 1, i, false =>
      (loopRun iter esc ext fuel (i + 1) (esc i || ext i)).map
        (fun rest => iter (esc i) :: rest)

/-- The render loop of `example-hello-triangle`, started with the close flag
down. -/
def triRenderLoop (env : Env) (fuel : Nat) : Option (List (List Ev)) :=
  loopRun triIterEvents env.escDown env.extClose fuel 0 false

/-- The render loop of `example-first-project`, started with the close flag
down. -/
def winRenderLoop (env : Env) (fuel : Nat) : Option (List (List Ev)) :=
  loopRun winIterEvents env.escDown env.extClose fuel 0 false

/-- Everything `example-hello-triangle` does before its render loop, on the
successful startup path. -/
def triPreLoopEvents (vOk fOk lOk : Bool) : List Ev :=
  startupEvents ++ contextEvents ++ shaderBuildEvents vOk fOk lOk
    ++ vertexSetupEvents

/-- Everything `example-first-project` does before its render loop, on the
successful startup path. -/
def winPreLoopEvents : List Ev :=
  startupEvents ++ contextEvents

/-- `main` of `example-hello-triangle`: startup, shader build, vertex setup,
render loop, teardown; exit status 0, or -1 on the two fatal startup
failures. -/
def triMain (env : Env) (fuel : Nat) : Option (List Ev × Int) :=
  if env.windowOk = false then some (windowFailTrace, -1)
  else if env.gladOk = false then some (gladFailTrace, -1)
  else
    (triRenderLoop env fuel).map fun iters =>
      (triPreLoopEvents env.vertexCompileOk env.fragmentCompileOk env.linkOk
         ++ iters.flatten ++ [Ev.terminate], 0)

/-- `main` of `example-first-project`: startup, render loop, teardown; exit
status 0, or -1 on the two fatal startup failures. -/
def winMain (env : Env) (fuel : Nat) : Option (List Ev × Int) :=
  if env.windowOk = false then some (windowFailTrace, -1)
  else if env.gladOk = false then some (gladFailTrace, -1)
  else
    (winRenderLoop env fuel).map fun iters =>
      (winPreLoopEvents ++ iters.flatten ++ [Ev.terminate], 0)

/-- Is this event a draw call? -/
def isDrawEv : Ev → Bool
  | .drawArrays _ _ _ => true
  | _ => false

/-- Is this event a clear-color configuration? -/
def isClearColorEv : Ev → Bool
  | .clearColor _ _ _ _ => true
  | _ => false

/-- Does this event belong to the shader-program / geometry pipeline
(shader objects, program, vertex buffers, draw calls)? -/
def isGeomEv : Ev → Bool
  | .createShader _ _ => true
  | .shaderSource _ _ => true
  | .compileShader _ => true
  | .getShaderiv _ _ => true
  | .getShaderInfoLog _ _ => true
  | .createProgram _ => true
  | .attachShader _ _ => true
  | .linkProgram _ => true
  | .getProgramiv _ _ => true
  | .getProgramInfoLog _ _ => true
  | .deleteShader _ => true
  | .useProgram _ => true
  | .genVertexArrays _ => true
  | .genBuffers _ => true
  | .bindVertexArray _ => true
  | .bindBuffer _ _ => true
  | .bufferData _ _ => true
  | .vertexAttribPointer _ _ => true
  | .enableVertexAttribArray _ => true
  | .drawArrays _ _ _ => true
  | _ => false

/-- Does the event reference one of the two intermediate Shader Objects? -/
def usesShaderObj : Ev → Bool
  | .createShader _ i => i == vertexShader || i == fragmentShader
  | .shaderSource i _ => i == vertexShader || i == fragmentShader
  | .compileShader i => i == vertexShader || i == fragmentShader
  | .getShaderiv i _ => i == vertexShader || i == fragmentShader
  | .getShaderInfoLog i _ => i == vertexShader || i == fragmentShader
  | .attachShader _ s => s == vertexShader || s == fragmentShader
  | .deleteShader i => i == vertexShader || i == fragmentShader
  | _ => false

/-- Is this event a shader-program bind? -/
def isUseProgramEv : Ev → Bool
  | .useProgram _ => true
  | _ => false

/-- Replace any clear-color value by the one of `example-first-project`. -/
def recolor : Ev → Ev
  | .clearColor _ _ _ _ => Ev.clearColor 0 145 1000 1000
  | e => e

/-- Is this event one of the shader build's diagnostic messages? -/
def isShaderDiagMsg : Ev → Bool
  | .printMsg s =>
      s == "ERROR::SHADER::VERTEX::COMPILATION_FAILED"
      || s == "ERROR::SHADER::FRAGMENT::COMPILATION_FAILED"
      || s == "ERROR::SHADER::PROGRAM::LINKING_FAILED"
  | _ => false

/-- Does this event belong to the triangle variant's extra pipeline: the
shader/geometry operations together with the build's diagnostic messages? -/
def isPipelineEv (e : Ev) : Bool := isGeomEv e || isShaderDiagMsg e

/-- The event transformation relating the two variants: drop the
shader-and-geometry pipeline events (diagnostics included) and identify the
clear colors. -/
def tfEv (it : List Ev) : List Ev :=
  (it.filter fun e => !isPipelineEv e).map recolor

/-- All-success environment with escape pressed during iteration 0. -/
def envAllOk : Env :=
  ⟨true, true, true, true, true, fun n => n == 0, fun _ => false⟩

/-- Environment whose window creation fails. -/
def envNoWindow : Env :=
  ⟨false, true, true, true, true, fun n => n == 0, fun _ => false⟩

/-- Environment whose GLAD loading fails. -/
def envNoGlad : Env :=
  ⟨true, false, true, true, true, fun n => n == 0, fun _ => false⟩

/-- All-success environment with escape pressed during iteration 1, so the
loop runs two iterations. -/
def envTwoFrames : Env :=
  ⟨true, true, true, true, true, fun n => n == 1, fun _ => false⟩

/-- Environment where both compiles and the link fail. -/
def envBadShaders : Env :=
  ⟨true, true, false, false, false, fun n => n == 0, fun _ => false⟩

/-- With the close flag already raised, the loop runs no iteration. -/
theorem loopRun_closed (iter : Bool → List Ev) (esc ext : Nat → Bool)
    (fuel i : Nat) : loopRun iter esc ext fuel i true = some [] := by
  cases fuel <;> rfl

/-- Shape of a terminating loop run: iteration `j` is exactly the iteration
body at the escape signal of step `i + j`, and an escape signal at step
`i + j` makes iteration `j` the last one. -/
theorem loopRun_get (iter : Bool → List Ev) (esc ext : Nat → Bool) :
    ∀ (fuel i : Nat) (l : List (List Ev)),
      loopRun iter esc ext fuel i false = some l →
      ∀ (j : Nat) (h : j < l.length),
        l.get ⟨j, h⟩ = iter (esc (i + j)) ∧
          (esc (i + j) = true → l.length = j + 1) := by
  intro fuel
  induction fuel with
  | zero => intro i l hl; simp [loopRun] at hl
  | succ fuel ih =>
    intro i l hl j h
    simp only [loopRun, Option.map_eq_some'] at hl
    obtain ⟨rest, hrest, hl⟩ := hl
    subst hl
    cases j with
    | zero =>
      refine ⟨by simp, ?_⟩
      intro hesc
      have hc : (esc i || ext i) = true := by simp [Nat.add_zero] at hesc; simp [hesc]
      rw [hc, loopRun_closed] at hrest
      cases hrest
      simp
    | succ j =>
      have h' : j < rest.length := by simpa using h
      cases hc : (esc i || ext i) with
      | true =>
        rw [hc, loopRun_closed] at hrest
        cases hrest
        simp at h'
      | false =>
        rw [hc] at hrest
        have hrec := ih (i + 1) rest hrest j h'
        have harith : i + (j + 1) = (i + 1) + j := by omega
        refine ⟨?_, ?_⟩
        · rw [harith]
          simpa using hrec.1
        · intro hesc
          rw [harith] at hesc
          have := hrec.2 hesc
          simp [this]

/-- Every iteration of a loop run is an instance of the iteration body. -/
theorem loopRun_mem (iter : Bool → List Ev) (esc ext : Nat → Bool) :
    ∀ (fuel i : Nat) (closed : Bool) (l : List (List Ev)),
      loopRun iter esc ext fuel i closed = some l →
      ∀ it ∈ l, ∃ b, it = iter b := by
  intro fuel
  induction fuel with
  | zero =>
    intro i closed l hl it hit
    cases closed with
    | false => simp [loopRun] at hl
    | true =>
      rw [loopRun_closed] at hl
      cases hl
      simp at hit
  | succ fuel ih =>
    intro i closed l hl it hit
    cases closed with
    | true =>
      rw [loopRun_closed] at hl
      cases hl
      simp at hit
    | false =>
      simp only [loopRun, Option.map_eq_some'] at hl
      obtain ⟨rest, hrest, hl⟩ := hl
      subst hl
      rcases List.mem_cons.mp hit with hit | hit
      · exact ⟨esc i, hit⟩
      · exact ih (i + 1) _ rest hrest it hit

/-- C6: the framebuffer-size callback sets the viewport to origin (0,0) with
exactly the given width and height; in particular (400, 300) yields a
viewport at origin (0,0) of size (400, 300). -/
theorem framebufferSizeCallback_viewport :
    (∀ width height : Int,
      framebufferSizeCallback width height = [Ev.viewport 0 0 width height]) ∧
    framebufferSizeCallback 400 300 = [Ev.viewport 0 0 400 300] :=
  ⟨fun _ _ => rfl, rfl⟩

/-- Evaluation of `winMain` on the window-creation-failure path. -/
theorem winMain_noWindow (env : Env) (fuel : Nat)
    (hw : env.windowOk = false) :
    winMain env fuel = some (windowFailTrace, -1) := by
  simp [winMain, hw]

/-- Evaluation of `triMain` on the window-creation-failure path. -/
theorem triMain_noWindow (env : Env) (fuel : Nat)
    (hw : env.windowOk = false) :
    triMain env fuel = some (windowFailTrace, -1) := by
  simp [triMain, hw]

/-- Evaluation of `winMain` on the GLAD-failure path. -/
theorem winMain_noGlad (env : Env) (fuel : Nat)
    (hw : env.windowOk = true) (hg : env.gladOk = false) :
    winMain env fuel = some (gladFailTrace, -1) := by
  simp [winMain, hw, hg]

/-- Evaluation of `triMain` on the GLAD-failure path. -/
theorem triMain_noGlad (env : Env) (fuel : Nat)
    (hw : env.windowOk = true) (hg : env.gladOk = false) :
    triMain env fuel = some (gladFailTrace, -1) := by
  simp [triMain, hw, hg]

/-- Evaluation of `winMain` on the successful startup path. -/
theorem winMain_ok (env : Env) (fuel : Nat)
    (hw : env.windowOk = true) (hg : env.gladOk = true) :
    winMain env fuel = (winRenderLoop env fuel).map fun iters =>
      (winPreLoopEvents ++ iters.flatten ++ [Ev.terminate], 0) := by
  simp [winMain, hw, hg]

/-- Evaluation of `triMain` on the successful startup path. -/
theorem triMain_ok (env : Env) (fuel : Nat)
    (hw : env.windowOk = true) (hg : env.gladOk = true) :
    triMain env fuel = (triRenderLoop env fuel).map fun iters =>
      (triPreLoopEvents env.vertexCompileOk env.fragmentCompileOk env.linkOk
        ++ iters.flatten ++ [Ev.terminate], 0) := by
  simp [triMain, hw, hg]

/-- C5: for either variant, a terminating run exits with status -1 exactly
when window creation or entry-point resolution failed (each after printing
its failure message), and with status 0 otherwise; no other status occurs. -/
theorem main_exit_codes (env : Env) (fuel : Nat) (tr : List Ev) (c : Int)
    (h : winMain env fuel = some (tr, c) ∨ triMain env fuel = some (tr, c)) :
    c = (if env.windowOk = false ∨ env.gladOk = false then -1 else 0) ∧
      (env.windowOk = false →
        Ev.printMsg "Failed to create GLFW window" ∈ tr) ∧
      (env.windowOk = true → env.gladOk = false →
        Ev.printMsg "Failed to initialize GLAD" ∈ tr) := by
  cases hw : env.windowOk with
  | false =>
    have h' : some (windowFailTrace, (-1 : Int)) = some (tr, c) := by
      rcases h with h | h
      · rw [← h]; exact (winMain_noWindow env fuel hw).symm
      · rw [← h]; exact (triMain_noWindow env fuel hw).symm
    simp only [Option.some.injEq, Prod.mk.injEq] at h'
    obtain ⟨h1, h2⟩ := h'
    subst h1; subst h2
    refine ⟨by simp, fun _ => by decide, ?_⟩
    intro habs
    simp at habs
  | true =>
    cases hg : env.gladOk with
    | false =>
      have h' : some (gladFailTrace, (-1 : Int)) = some (tr, c) := by
        rcases h with h | h
        · rw [← h]; exact (winMain_noGlad env fuel hw hg).symm
        · rw [← h]; exact (triMain_noGlad env fuel hw hg).symm
      simp only [Option.some.injEq, Prod.mk.injEq] at h'
      obtain ⟨h1, h2⟩ := h'
      subst h1; subst h2
      refine ⟨by simp, ?_, fun _ _ => by decide⟩
      intro habs
      simp at habs
    | true =>
      have hc : c = 0 := by
        rcases h with h | h
        · rw [winMain_ok env fuel hw hg, Option.map_eq_some'] at h
          obtain ⟨iters, -, h⟩ := h
          exact (congrArg Prod.snd h).symm
        · rw [triMain_ok env fuel hw hg, Option.map_eq_some'] at h
          obtain ⟨iters, -, h⟩ := h
          exact (congrArg Prod.snd h).symm
      subst hc
      refine ⟨by simp, ?_, ?_⟩
      · intro habs; simp at habs
      · intro _ habs; simp at habs

/-- Witness for C5 at a concrete failing environment. -/
theorem main_exit_codes_witness :
    ((-1 : Int) =
        (if envNoWindow.windowOk = false ∨ envNoWindow.gladOk = false
          then -1 else 0)) ∧
      (envNoWindow.windowOk = false →
        Ev.printMsg "Failed to create GLFW window" ∈ windowFailTrace) ∧
      (envNoWindow.windowOk = true → envNoWindow.gladOk = false →
        Ev.printMsg "Failed to initialize GLAD" ∈ windowFailTrace) :=
  main_exit_codes envNoWindow 0 windowFailTrace (-1) (Or.inl rfl)

/-- C10: on window-creation failure both variants call `glfwTerminate`
before returning -1, but on entry-point-resolution failure both return -1
without tearing the windowing subsystem down, the created window still
alive. -/
theorem fatal_paths_cleanup_asymmetry (env : Env) (fuel : Nat) :
    (env.windowOk = false →
      winMain env fuel = some (windowFailTrace, -1) ∧
      triMain env fuel = some (windowFailTrace, -1) ∧
      Ev.terminate ∈ windowFailTrace) ∧
    (env.windowOk = true → env.gladOk = false →
      winMain env fuel = some (gladFailTrace, -1) ∧
      triMain env fuel = some (gladFailTrace, -1) ∧
      Ev.terminate ∉ gladFailTrace ∧
      Ev.createWindow WINDOW_WIDTH WINDOW_HEIGHT windowTitle
        ∈ gladFailTrace) := by
  constructor
  · intro hw
    refine ⟨?_, ?_, by decide⟩ <;> simp [winMain, triMain, hw]
  · intro hw hg
    refine ⟨?_, ?_, by decide, by decide⟩ <;> simp [winMain, triMain, hw, hg]

/-- Witness for C10 at the two concrete failing environments. -/
theorem fatal_paths_cleanup_asymmetry_witness :
    (winMain envNoWindow 0 = some (windowFailTrace, -1) ∧
      triMain envNoWindow 0 = some (windowFailTrace, -1) ∧
      Ev.terminate ∈ windowFailTrace) ∧
    (winMain envNoGlad 0 = some (gladFailTrace, -1) ∧
      triMain envNoGlad 0 = some (gladFailTrace, -1) ∧
      Ev.terminate ∉ gladFailTrace ∧
      Ev.createWindow WINDOW_WIDTH WINDOW_HEIGHT windowTitle
        ∈ gladFailTrace) :=
  ⟨(fatal_paths_cleanup_asymmetry envNoWindow 0).1 rfl,
   (fatal_paths_cleanup_asymmetry envNoGlad 0).2 rfl rfl⟩

/-- C1: every iteration of the geometry variant's render loop performs, in
strict order: (1) input check, (2) clear to the configured color, (3) bind
the Shader Program and the Vertex Buffer's layout and issue one draw call of
3 vertices with triangle topology, (4) event processing, (5) buffer swap;
and each iteration contains exactly one draw call. -/
theorem tri_iteration_structure (env : Env) (fuel : Nat)
    (l : List (List Ev)) (hl : triRenderLoop env fuel = some l) :
    ∀ it ∈ l, ∃ b : Bool,
      it = [Ev.getKey GLFW_KEY_ESCAPE]
          ++ (if b then [Ev.setWindowShouldClose true] else [])
          ++ [Ev.clearColor 200 300 300 1000, Ev.clear GL_COLOR_BUFFER_BIT]
          ++ [Ev.useProgram shaderProgram, Ev.bindVertexArray VAO,
              Ev.drawArrays GL_TRIANGLES 0 3]
          ++ [Ev.pollEvents]
          ++ [Ev.swapBuffers]
        ∧ it.countP (fun e => isDrawEv e) = 1 := by
  intro it hit
  obtain ⟨b, rfl⟩ :=
    loopRun_mem triIterEvents env.escDown env.extClose fuel 0 false l hl it hit
  exact ⟨b, by cases b <;> rfl, by cases b <;> rfl⟩

/-- Witness for C1 at a concrete one-frame run. -/
theorem tri_iteration_structure_witness :
    ∃ b : Bool,
      triIterEvents true = [Ev.getKey GLFW_KEY_ESCAPE]
          ++ (if b then [Ev.setWindowShouldClose true] else [])
          ++ [Ev.clearColor 200 300 300 1000, Ev.clear GL_COLOR_BUFFER_BIT]
          ++ [Ev.useProgram shaderProgram, Ev.bindVertexArray VAO,
              Ev.drawArrays GL_TRIANGLES 0 3]
          ++ [Ev.pollEvents]
          ++ [Ev.swapBuffers]
        ∧ (triIterEvents true).countP (fun e => isDrawEv e) = 1 :=
  tri_iteration_structure envAllOk 2 [triIterEvents true] rfl
    (triIterEvents true) (by simp)

/-- C2: if the escape key is pressed during iteration `j`'s input check of a
terminating run of the geometry variant's render loop, that iteration still
performs all of its remaining steps (clear, draw, event processing, present)
and is the last one: the loop produces exactly `j + 1` iterations. -/
theorem escape_ends_loop_after_full_iteration (env : Env) (fuel : Nat)
    (l : List (List Ev)) (hl : triRenderLoop env fuel = some l)
    (j : Nat) (h : j < l.length) (hesc : env.escDown j = true) :
    l.get ⟨j, h⟩ = triIterEvents true ∧
      Ev.clear GL_COLOR_BUFFER_BIT ∈ l.get ⟨j, h⟩ ∧
      Ev.drawArrays GL_TRIANGLES 0 3 ∈ l.get ⟨j, h⟩ ∧
      Ev.pollEvents ∈ l.get ⟨j, h⟩ ∧
      Ev.swapBuffers ∈ l.get ⟨j, h⟩ ∧
      l.length = j + 1 := by
  have hg := loopRun_get triIterEvents env.escDown env.extClose fuel 0 l hl j h
  rw [Nat.zero_add] at hg
  have h1 := hg.1
  rw [hesc] at h1
  refine ⟨h1, ?_, ?_, ?_, ?_, hg.2 hesc⟩ <;> rw [h1] <;> decide

/-- Witness for C2: escape pressed during the first iteration of a concrete
run makes it the only iteration. -/
theorem escape_ends_loop_after_full_iteration_witness :
    [triIterEvents true].get ⟨0, Nat.zero_lt_one⟩ = triIterEvents true ∧
      Ev.clear GL_COLOR_BUFFER_BIT
        ∈ [triIterEvents true].get ⟨0, Nat.zero_lt_one⟩ ∧
      Ev.drawArrays GL_TRIANGLES 0 3
        ∈ [triIterEvents true].get ⟨0, Nat.zero_lt_one⟩ ∧
      Ev.pollEvents ∈ [triIterEvents true].get ⟨0, Nat.zero_lt_one⟩ ∧
      Ev.swapBuffers ∈ [triIterEvents true].get ⟨0, Nat.zero_lt_one⟩ ∧
      [triIterEvents true].length = 0 + 1 :=
  escape_ends_loop_after_full_iteration envAllOk 2 [triIterEvents true] rfl
    0 Nat.zero_lt_one rfl

/-- C9: every iteration of the no-geometry variant's render loop is exactly
input check, clear, event processing, present; no iteration contains a draw
call, a program bind, or any shader/vertex-buffer operation. -/
theorem win_iteration_no_geometry (env : Env) (fuel : Nat)
    (l : List (List Ev)) (hl : winRenderLoop env fuel = some l) :
    ∀ it ∈ l, ∃ b : Bool,
      it = [Ev.getKey GLFW_KEY_ESCAPE]
          ++ (if b then [Ev.setWindowShouldClose true] else [])
          ++ [Ev.clearColor 0 145 1000 1000, Ev.clear GL_COLOR_BUFFER_BIT]
          ++ [Ev.pollEvents]
          ++ [Ev.swapBuffers]
        ∧ ∀ e ∈ it, isGeomEv e = false := by
  intro it hit
  obtain ⟨b, rfl⟩ :=
    loopRun_mem winIterEvents env.escDown env.extClose fuel 0 false l hl it hit
  exact ⟨b, by cases b <;> rfl, by cases b <;> decide⟩

/-- Witness for C9 at a concrete one-frame run. -/
theorem win_iteration_no_geometry_witness :
    ∃ b : Bool,
      winIterEvents true = [Ev.getKey GLFW_KEY_ESCAPE]
          ++ (if b then [Ev.setWindowShouldClose true] else [])
          ++ [Ev.clearColor 0 145 1000 1000, Ev.clear GL_COLOR_BUFFER_BIT]
          ++ [Ev.pollEvents]
          ++ [Ev.swapBuffers]
        ∧ ∀ e ∈ winIterEvents true, isGeomEv e = false :=
  win_iteration_no_geometry envAllOk 2 [winIterEvents true] rfl
    (winIterEvents true) (by simp)

/-- C7 (counterexample): in a two-frame run of the no-geometry variant the
clear color is configured twice — once per iteration — and never before the
loop, so it is not configured exactly once at startup. -/
theorem clear_color_not_once_counterexample :
    (winMain envTwoFrames 3).map
        (fun p => p.1.countP (fun e => isClearColorEv e)) = some 2 ∧
      winPreLoopEvents.countP (fun e => isClearColorEv e) = 0 := by
  exact ⟨rfl, rfl⟩

/-- C7 (amended): the clear color is set during every loop iteration rather
than once before the loop: each iteration of either variant sets it exactly
once, always with the same constant value, and no clear-color call occurs
before either loop, so the effective frame state is constant over the run. -/
theorem clear_color_set_every_frame (env : Env) (fuel : Nat)
    (l : List (List Ev)) :
    (winRenderLoop env fuel = some l →
      ∀ it ∈ l, it.countP (fun e => isClearColorEv e) = 1 ∧
        Ev.clearColor 0 145 1000 1000 ∈ it) ∧
    (triRenderLoop env fuel = some l →
      ∀ it ∈ l, it.countP (fun e => isClearColorEv e) = 1 ∧
        Ev.clearColor 200 300 300 1000 ∈ it) ∧
    winPreLoopEvents.countP (fun e => isClearColorEv e) = 0 ∧
    (triPreLoopEvents env.vertexCompileOk env.fragmentCompileOk
        env.linkOk).countP (fun e => isClearColorEv e) = 0 := by
  refine ⟨?_, ?_, rfl, ?_⟩
  · intro hl it hit
    obtain ⟨b, rfl⟩ :=
      loopRun_mem winIterEvents env.escDown env.extClose fuel 0 false l hl it hit
    cases b <;> exact ⟨rfl, by decide⟩
  · intro hl it hit
    obtain ⟨b, rfl⟩ :=
      loopRun_mem triIterEvents env.escDown env.extClose fuel 0 false l hl it hit
    cases b <;> exact ⟨rfl, by decide⟩
  · cases env.vertexCompileOk <;> cases env.fragmentCompileOk <;>
      cases env.linkOk <;> decide

/-- Witness for C7's amended claim at a concrete one-frame run. -/
theorem clear_color_set_every_frame_witness :
    ((winIterEvents true).countP (fun e => isClearColorEv e) = 1 ∧
      Ev.clearColor 0 145 1000 1000 ∈ winIterEvents true) ∧
    ((triIterEvents true).countP (fun e => isClearColorEv e) = 1 ∧
      Ev.clearColor 200 300 300 1000 ∈ triIterEvents true) :=
  ⟨(clear_color_set_every_frame envAllOk 2 [winIterEvents true]).1 rfl
      (winIterEvents true) (by simp),
   (clear_color_set_every_frame envAllOk 2 [triIterEvents true]).2.1 rfl
      (triIterEvents true) (by simp)⟩

/-- C3: each compile/link status check retrieves a diagnostic log bounded by
512 bytes and prints a message exactly when its status flag reports failure —
so on success that check's log is not retrieved and its message is not
printed; and execution always continues past the check: the build reaches
the link and the final deletions on every flag combination, and a run with
successful startup still reaches the render loop and exits 0 whatever the
flags are. -/
theorem shader_status_check_policy (v f lk : Bool) :
    (Ev.getShaderInfoLog vertexShader 512 ∈ shaderBuildEvents v f lk
      ↔ v = false) ∧
    (Ev.printMsg "ERROR::SHADER::VERTEX::COMPILATION_FAILED"
        ∈ shaderBuildEvents v f lk ↔ v = false) ∧
    (Ev.getShaderInfoLog fragmentShader 512 ∈ shaderBuildEvents v f lk
      ↔ f = false) ∧
    (Ev.printMsg "ERROR::SHADER::FRAGMENT::COMPILATION_FAILED"
        ∈ shaderBuildEvents v f lk ↔ f = false) ∧
    (Ev.getProgramInfoLog shaderProgram 512 ∈ shaderBuildEvents v f lk
      ↔ lk = false) ∧
    (Ev.printMsg "ERROR::SHADER::PROGRAM::LINKING_FAILED"
        ∈ shaderBuildEvents v f lk ↔ lk = false) ∧
    Ev.linkProgram shaderProgram ∈ shaderBuildEvents v f lk ∧
    shaderBuildEvents v f lk = shaderBuildBody v f lk
      ++ [Ev.deleteShader vertexShader, Ev.deleteShader fragmentShader] ∧
    (∀ env fuel tr c, env.windowOk = true → env.gladOk = true →
      triMain env fuel = some (tr, c) →
      c = 0 ∧ Ev.terminate ∈ tr) := by
  refine ⟨?_, ?_, ?_, ?_, ?_, ?_, ?_, rfl, ?_⟩
  · cases v <;> cases f <;> cases lk <;> decide
  · cases v <;> cases f <;> cases lk <;> decide
  · cases v <;> cases f <;> cases lk <;> decide
  · cases v <;> cases f <;> cases lk <;> decide
  · cases v <;> cases f <;> cases lk <;> decide
  · cases v <;> cases f <;> cases lk <;> decide
  · cases v <;> cases f <;> cases lk <;> decide
  · intro env fuel tr c hw hg hmain
    rw [triMain_ok env fuel hw hg, Option.map_eq_some'] at hmain
    obtain ⟨iters, -, hmain⟩ := hmain
    have hc : c = 0 := (congrArg Prod.snd hmain).symm
    have htr : tr = triPreLoopEvents env.vertexCompileOk
        env.fragmentCompileOk env.linkOk ++ iters.flatten ++ [Ev.terminate] :=
      (congrArg Prod.fst hmain).symm
    subst hc
    rw [htr]
    exact ⟨rfl, by simp⟩

/-- Witness for C3 with all three status flags failing, on a run that still
terminates normally. -/
theorem shader_status_check_policy_witness :
    (Ev.getShaderInfoLog vertexShader 512
        ∈ shaderBuildEvents false false false ↔ false = false) ∧
    ((0 : Int) = 0 ∧ Ev.terminate ∈
      triPreLoopEvents false false false
        ++ [triIterEvents true].flatten ++ [Ev.terminate]) :=
  ⟨(shader_status_check_policy false false false).1,
   (shader_status_check_policy false false false).2.2.2.2.2.2.2.2
      envBadShaders 1
      (triPreLoopEvents false false false
        ++ [triIterEvents true].flatten ++ [Ev.terminate]) 0
      rfl rfl rfl⟩

/-- C4: in every run of the triangle variant that reaches the shader build,
both intermediate Shader Objects are deleted after the link step on every
path — whatever the compile and link outcomes — and no later event of the
run references either of them. -/
theorem shader_objects_deleted (env : Env) (fuel : Nat) (tr : List Ev)
    (c : Int) (hw : env.windowOk = true) (hg : env.gladOk = true)
    (hmain : triMain env fuel = some (tr, c)) :
    ∃ A B, tr = A ++ [Ev.deleteShader vertexShader,
        Ev.deleteShader fragmentShader] ++ B ∧
      Ev.linkProgram shaderProgram ∈ A ∧
      ∀ e ∈ B, usesShaderObj e = false := by
  rw [triMain_ok env fuel hw hg, Option.map_eq_some'] at hmain
  obtain ⟨iters, hiters, hmain⟩ := hmain
  have htr : tr = triPreLoopEvents env.vertexCompileOk
      env.fragmentCompileOk env.linkOk ++ iters.flatten ++ [Ev.terminate] :=
    (congrArg Prod.fst hmain).symm
  subst htr
  refine ⟨startupEvents ++ contextEvents
      ++ shaderBuildBody env.vertexCompileOk env.fragmentCompileOk env.linkOk,
    vertexSetupEvents ++ iters.flatten ++ [Ev.terminate], ?_, ?_, ?_⟩
  · simp [triPreLoopEvents, shaderBuildEvents, List.append_assoc]
  · have hlk : Ev.linkProgram shaderProgram ∈ shaderBuildBody
        env.vertexCompileOk env.fragmentCompileOk env.linkOk := by
      cases env.vertexCompileOk <;> cases env.fragmentCompileOk <;>
        cases env.linkOk <;> decide
    simp [hlk]
  · intro e he
    rcases List.mem_append.mp he with he | he
    · rcases List.mem_append.mp he with he | he
      · exact (by decide :
          ∀ x ∈ vertexSetupEvents, usesShaderObj x = false) e he
      · obtain ⟨it, hitmem, hein⟩ := List.mem_flatten.mp he
        obtain ⟨b, rfl⟩ := loopRun_mem triIterEvents env.escDown
          env.extClose fuel 0 false iters hiters it hitmem
        have hall : ∀ x ∈ triIterEvents b, usesShaderObj x = false := by
          cases b <;> decide
        exact hall e hein
    · simp only [List.mem_singleton] at he
      subst he
      rfl

/-- Witness for C4 at a concrete successful one-frame run. -/
theorem shader_objects_deleted_witness :
    ∃ A B, triPreLoopEvents true true true
        ++ [triIterEvents true].flatten ++ [Ev.terminate]
      = A ++ [Ev.deleteShader vertexShader,
          Ev.deleteShader fragmentShader] ++ B ∧
      Ev.linkProgram shaderProgram ∈ A ∧
      ∀ e ∈ B, usesShaderObj e = false :=
  shader_objects_deleted envAllOk 2
    (triPreLoopEvents true true true
      ++ [triIterEvents true].flatten ++ [Ev.terminate]) 0 rfl rfl rfl

/-- The variant-relating transformation distributes over append. -/
theorem tfEv_append (a b : List Ev) : tfEv (a ++ b) = tfEv a ++ tfEv b := by
  simp [tfEv, List.filter_append]

/-- The variant-relating transformation distributes over flatten. -/
theorem tfEv_flatten : ∀ L : List (List Ev),
    tfEv L.flatten = (L.map tfEv).flatten := by
  intro L
  induction L with
  | nil => rfl
  | cons a L ih => simp [List.flatten_cons, tfEv_append, ih]

/-- Mapping an iteration-wise transformation through the render loop. -/
theorem loopRun_map_iter (g : List Ev → List Ev) (i1 i2 : Bool → List Ev)
    (hg : ∀ b, g (i1 b) = i2 b) (esc ext : Nat → Bool) :
    ∀ (fuel i : Nat) (closed : Bool),
      (loopRun i1 esc ext fuel i closed).map (List.map g) =
        loopRun i2 esc ext fuel i closed := by
  intro fuel
  induction fuel with
  | zero => intro i closed; cases closed <;> rfl
  | succ fuel ih =>
    intro i closed
    cases closed with
    | true => rfl
    | false =>
      simp only [loopRun, Option.map_map]
      rw [← ih (i + 1) (esc i || ext i)]
      cases loopRun i1 esc ext fuel (i + 1) (esc i || ext i) with
      | none => rfl
      | some rest => simp [Function.comp, hg]

/-- C8 (counterexample): in the same one-frame environment the triangle
variant issues a draw call while the window variant issues none and never
binds a shader program at all — an operation difference beyond clear color
and bind placement. -/
theorem variants_not_operation_equal :
    (triMain envAllOk 2).map
        (fun p => p.1.countP (fun e => isDrawEv e)) = some 1 ∧
      (winMain envAllOk 2).map
        (fun p => p.1.countP (fun e => isDrawEv e)) = some 0 ∧
      (winMain envAllOk 2).map
        (fun p => p.1.countP (fun e => isUseProgramEv e)) = some 0 :=
  ⟨rfl, rfl, rfl⟩

/-- C8 (amended): for every run — whatever the shader build's outcome — the
two variants agree exactly after erasing the triangle variant's
shader-and-geometry pipeline events (its build diagnostics included) and
identifying the two clear colors: startup, input handling, event processing,
presentation, teardown and exit status coincide.  (The window variant
performs none of the shader or geometry operations; in particular it does
not bind a program once before its loop.) -/
theorem variants_agree_modulo_geometry (env : Env) (fuel : Nat) :
    (triMain env fuel).map (fun p => (tfEv p.1, p.2)) = winMain env fuel := by
  cases hw : env.windowOk with
  | false =>
    rw [winMain_noWindow env fuel hw, triMain_noWindow env fuel hw]
    have htf : tfEv windowFailTrace = windowFailTrace := by decide
    simp [htf]
  | true =>
    cases hg : env.gladOk with
    | false =>
      rw [winMain_noGlad env fuel hw hg, triMain_noGlad env fuel hw hg]
      have htf : tfEv gladFailTrace = gladFailTrace := by decide
      simp [htf]
    | true =>
      rw [triMain_ok env fuel hw hg, winMain_ok env fuel hw hg]
      unfold triRenderLoop winRenderLoop
      rw [← loopRun_map_iter tfEv triIterEvents winIterEvents
        (fun b => by cases b <;> decide) env.escDown env.extClose fuel 0 false]
      cases loopRun triIterEvents env.escDown env.extClose fuel 0 false with
      | none => rfl
      | some iters =>
        simp only [Option.map_some']
        have hpre : tfEv (triPreLoopEvents env.vertexCompileOk
            env.fragmentCompileOk env.linkOk) = winPreLoopEvents := by
          cases env.vertexCompileOk <;> cases env.fragmentCompileOk <;>
            cases env.linkOk <;> decide
        rw [tfEv_append, tfEv_append, tfEv_flatten, hpre]
        rfl

/-- Witness for C8's amended claim at a concrete one-frame run with all
three shader status flags failing, so the erased diagnostics are exercised. -/
theorem variants_agree_modulo_geometry_witness :
    (triMain envBadShaders 2).map (fun p => (tfEv p.1, p.2))
      = winMain envBadShaders 2 :=
  variants_agree_modulo_geometry envBadShaders 2

end WtLearnOpenGL
